import Mathlib

/-!
Verification of the now-playing source aggregator and cross-surface
synchronization layer (Tauri front-end scripts: main.js, widget.js,
settings.js).  Each JavaScript function relevant to the claims is embedded
as an executable Lean definition; theorems settle the specification claims.

JavaScript conventions modelled explicitly:
  - absent / null / undefined string fields are `Option String`, and JS
    truthiness of a string value (empty string is falsy) is `truthyS`;
  - the `artists` field is sometimes a raw string and sometimes a list;
    `ArtistsField` keeps the distinction, and calling `.join` on a string
    value (a TypeError in JS) is modelled by an `Option` result.
-/

/-- JS truthiness of a nullable string: null/undefined and the empty string
are falsy. -/
def truthyS : Option String → Bool
  | none => false
  | some s => !(s == "")

/-- `Array.prototype.join` with a separator (`[].join(sep) = ""`). -/
def joinSep (sep : String) : List String → String
  | [] => ""
  | [x] => x
  | x :: y :: xs => x ++ sep ++ joinSep sep (y :: xs)

/-- Does the character list start with the given pattern? -/
def charListStarts : List Char → List Char → Bool
  | _, [] => true
  | [], _ :: _ => false
  | a :: as, b :: bs => a == b && charListStarts as bs

/-- Does the character list contain the pattern as a contiguous run? -/
def hasSubList (sub : List Char) : List Char → Bool
  | [] => charListStarts [] sub
  | a :: t => charListStarts (a :: t) sub || hasSubList sub t

/-- JS `String.prototype.includes`. -/
def jsIncludes (s sub : String) : Bool :=
  hasSubList sub.toList s.toList

/-- JS `String.prototype.toLowerCase` (ASCII, as used on app identifiers). -/
def jsToLower (s : String) : String :=
  String.mk (s.toList.map Char.toLower)

/-- Whitespace recognised by the trim model. -/
def isWSChar (c : Char) : Bool :=
  c == ' ' || c == '\t' || c == '\n' || c == '\r'

/-- JS `String.prototype.trim`. -/
def jsTrim (s : String) : String :=
  String.mk (((s.toList.dropWhile isWSChar).reverse.dropWhile isWSChar).reverse)

/-- JS `x || null` on a nullable string: the empty string collapses to null. -/
def jsOrNull : Option String → Option String
  | none => none
  | some s => if s == "" then none else some s

/-- The `artists` field of a now-playing record: absent, a raw string
(GSMTC-normalized records), or a list (push-service records). -/
inductive ArtistsField
  | absent
  | str (s : String)
  | list (l : List String)
deriving DecidableEq, Repr

/-- JS `(d.artists || []).join(sep)`: a raw string value has no `.join`
method, so that case is a TypeError, modelled as `none`. -/
def artistsJoin (sep : String) : ArtistsField → Option String
  | .absent => some ""
  | .list l => some (joinSep sep l)
  | .str _ => none

/-- The now-playing record as it travels between the scripts
(snake_case field names as in the JSON payloads). -/
structure NowPlayingJS where
  is_playing : Bool := false
  track_name : Option String := none
  artists : ArtistsField := .absent
  album : Option String := none
  artwork_url : Option String := none
  artwork_path : Option String := none
  source_app_id : Option String := none
deriving DecidableEq, Repr

/-- main.js `trackKey(d)`: join of track name, comma-joined artists and
album with the `||` delimiter; `none` when `.join` would throw. -/
def trackKey (d : NowPlayingJS) : Option String :=
  (artistsJoin "," d.artists).map (fun a =>
    joinSep "||" [d.track_name.getD "", a, d.album.getD ""])

/-- The export scheduler state kept by the main surface:
the persisted enable flag and the in-memory `lastExportKey`. -/
structure ExportState where
  exportEnabled : Bool
  lastExportKey : String
deriving DecidableEq, Repr

/-- main.js `maybeExport(d)`: returns the new state and whether an export
attempt was initiated.  The key is written into `lastExportKey`
synchronously, before `exportCurrent` is dispatched.  `none` models the
TypeError raised by `trackKey` on a raw-string artists field. -/
def maybeExport (st : ExportState) (d : Option NowPlayingJS) :
    Option (ExportState × Bool) :=
  if st.exportEnabled = false then some (st, false)
  else
    match d with
    | none => some (st, false)
    | some d =>
      if d.is_playing = false then some (st, false)
      else
        match trackKey d with
        | none => none
        | some key =>
          if key = st.lastExportKey then some (st, false)
          else some ({ st with lastExportKey := key }, true)

/-- The status message produced by the `.catch` handler of the dispatched
export promise. -/
def exportFailureStatus (err : String) : String :=
  "Export failed: " ++ err

/-- One observation step of the export scheduler including the asynchronous
outcome of the dispatched asset-writer invocation.  `writerFails` tells
whether that invocation fails; the `.catch` handler only sets a status
message and neither re-dispatches nor touches `lastExportKey`.
Returns (state, initiated?, status message). -/
def observeWithOutcome (st : ExportState) (d : Option NowPlayingJS)
    (writerFails : Bool) (err : String) :
    Option (ExportState × Bool × Option String) :=
  match maybeExport st d with
  | none => none
  | some (st1, initiated) =>
    if initiated && writerFails then
      some (st1, initiated, some (exportFailureStatus err))
    else
      some (st1, initiated, none)

/-- Fold `maybeExport` over a sequence of observed records, counting how
many export attempts are initiated. -/
def runObservations (st : ExportState) :
    List NowPlayingJS → Option (ExportState × Nat)
  | [] => some (st, 0)
  | d :: ds =>
    match maybeExport st (some d) with
    | none => none
    | some (st1, b) =>
      match runObservations st1 ds with
      | none => none
      | some (stf, n) => some (stf, (if b then 1 else 0) + n)

/-- widget.js `resolveArtUrl(d)`: prefer `artwork_url`, fall back to the
path-to-URL converter (`cvt` stands for the external `convertFileSrc`
collaborator), else the empty string. -/
def resolveArtUrl (cvt : String → String) (d : NowPlayingJS) : String :=
  if truthyS d.artwork_url then d.artwork_url.getD ""
  else if truthyS d.artwork_path then cvt (d.artwork_path.getD "")
  else ""

/-- What one call of the widget `render` did to its change-detection state. -/
inductive RenderOutcome
  | notPlaying
  | changed
  | unchanged
deriving DecidableEq, Repr

/-- widget.js `render(d)` restricted to its change-detection behaviour:
takes the current `lastKey`, returns the new `lastKey` and the outcome.
A missing record, a non-playing record or a falsy `track_name` resets the
key to the empty string; otherwise the key is
`title ++ "|" ++ meta ++ "|" ++ art`, and the animated swap branch
(`changed`) runs exactly when it differs from `lastKey`. -/
def widgetRenderStep (cvt : String → String) (lastKey : String)
    (d : Option NowPlayingJS) : String × RenderOutcome :=
  match d with
  | none => ("", .notPlaying)
  | some d =>
    if d.is_playing = false then ("", .notPlaying)
    else if truthyS d.track_name = false then ("", .notPlaying)
    else
      let title := d.track_name.getD ""
      let meta :=
        match d.artists with
        | .str s => s
        | .list l => joinSep ", " l
        | .absent => joinSep ", " []
      let art := resolveArtUrl cvt d
      let key := title ++ "|" ++ meta ++ "|" ++ art
      if key = lastKey then (lastKey, .unchanged) else (key, .changed)

/-- The data-acquisition resources of the widget, including the suspended
registration of the push listener.  widget.js `startSpotifyListener` is
`async`: it runs `stopSpotifyListener()` synchronously, then suspends at
`await listen(...)`, and assigns `spotifyUnsub` only when that await
resolves; `restartStrategy` invokes it without awaiting, so a registration
can still be pending when the next transition runs. -/
structure StrategyState where
  /-- how many push subscriptions are currently registered in the event
      system (more than one is possible: overwriting `spotifyUnsub` leaks
      the previously referenced subscription, which stays registered but
      unreachable) -/
  pushSubsLive : Nat
  /-- whether the `spotifyUnsub` variable currently holds the cancel
      function of one of the live subscriptions (non-null in JS) -/
  unsubRef : Bool
  /-- whether the poll interval timer is live (`gsmPollId` non-null) -/
  pollLive : Bool
  /-- how many `startSpotifyListener` bodies are suspended at
      `await listen` -/
  pendingListens : Nat
deriving DecidableEq, Repr

/-- widget.js `stopGSMTCPoll()`: clears the poll interval timer. -/
def stopGSMTCPoll (st : StrategyState) : StrategyState :=
  { st with pollLive := false }

/-- widget.js `stopSpotifyListener()`: only when `spotifyUnsub` holds a
function does it cancel the referenced subscription and null the
variable; a registration still pending at `await listen` is untouched,
because its `spotifyUnsub` assignment has not happened yet. -/
def stopSpotifyListener (st : StrategyState) : StrategyState :=
  if st.unsubRef then
    { st with pushSubsLive := st.pushSubsLive - 1, unsubRef := false }
  else st

/-- widget.js `startGSMTCPoll()`: synchronous; stops any previous timer,
then starts the 2000 ms interval. -/
def startGSMTCPoll (st : StrategyState) : StrategyState :=
  { stopGSMTCPoll st with pollLive := true }

/-- The synchronous prefix of widget.js async `startSpotifyListener()`:
`stopSpotifyListener()` runs, then the body suspends at `await listen`,
leaving one more registration pending. -/
def startSpotifyListenerPrefix (st : StrategyState) : StrategyState :=
  { stopSpotifyListener st with
    pendingListens := (stopSpotifyListener st).pendingListens + 1 }

/-- One pending `await listen` resolving: the subscription becomes live in
the event system and its cancel function is assigned to `spotifyUnsub`,
overwriting any previous reference (a previously referenced subscription
then stays live but unreachable). -/
def listenResolves (st : StrategyState) : StrategyState :=
  if st.pendingListens = 0 then st
  else
    { st with
      pushSubsLive := st.pushSubsLive + 1
      unsubRef := true
      pendingListens := st.pendingListens - 1 }

/-- The synchronous body of widget.js `restartStrategy()`: in gsmtc mode
it stops the push listener and starts the poll timer; in push mode it
stops the poll timer and runs the synchronous prefix of
`startSpotifyListener` — the registration completes only when its
`await listen` later resolves, and `restartStrategy` does not await it. -/
def restartStrategy (sourceMode : String) (st : StrategyState) :
    StrategyState :=
  if sourceMode = "gsmtc" then startGSMTCPoll (stopSpotifyListener st)
  else startSpotifyListenerPrefix (stopGSMTCPoll st)

/-- widget.js `setSourceMode(next)`: the value actually stored,
normalised to the two recognised modes. -/
def setSourceModeVal (next : String) : String :=
  if next = "gsmtc" then "gsmtc" else "spotify"

/-- An atomic step of the widget event loop affecting the strategy
resources: a `setSourceMode` transition (normalise, persist, run the
synchronous `restartStrategy` body), or the resolution of one pending
push-listener registration. -/
inductive StratEvent
  | setMode (next : String)
  | listenResolved
deriving DecidableEq, Repr

/-- The effect of one strategy event on the resource state. -/
def stratStep (st : StrategyState) : StratEvent → StrategyState
  | .setMode next => restartStrategy (setSourceModeVal next) st
  | .listenResolved => listenResolves st

/-- Run a sequence of strategy events from a state. -/
def runStrategy (st : StrategyState) : List StratEvent → StrategyState
  | [] => st
  | e :: es => runStrategy (stratStep st e) es

/-- The widget resource state at load: no subscription, no timer, nothing
pending (`spotifyUnsub` and `gsmPollId` are null). -/
def initialStrategyState : StrategyState :=
  { pushSubsLive := 0, unsubRef := false, pollLive := false,
    pendingListens := 0 }

/-- Both acquisition strategies live at once: at least one push
subscription registered in the event system while the poll timer runs. -/
def bothStrategiesLive (st : StrategyState) : Bool :=
  decide (0 < st.pushSubsLive) && st.pollLive

/-- A quiescent resource state: no registration pending, and the live
push subscriptions are exactly the one `spotifyUnsub` references (if
any).  This is the state between transitions when every registration
resolved before the next transition began. -/
def quiescent (st : StrategyState) : Bool :=
  decide (st.pendingListens = 0) &&
    decide (st.pushSubsLive = (if st.unsubRef then 1 else 0))

/-- One fully serialized mode transition: the synchronous
`restartStrategy` body followed, in push mode, by the resolution of the
registration it started, before any further event intervenes. -/
def serializedTransition (next : String) (st : StrategyState) :
    StrategyState :=
  if setSourceModeVal next = "gsmtc" then
    restartStrategy (setSourceModeVal next) st
  else listenResolves (restartStrategy (setSourceModeVal next) st)

/-- widget.js initial value of `sourceMode` (line 16: the built-in
default, not read from local storage). -/
def initialSourceMode : String := "spotify"

/-- widget.js fallback `setTimeout` body at load: only when `sourceMode`
is falsy (the empty string) does it fall back to the locally persisted
value (or "spotify" when none is stored). -/
def sourceModeFallback (current : String) (stored : Option String) :
    String :=
  if current = "" then
    setSourceModeVal
      (match stored with
       | none => "spotify"
       | some s => if s = "" then "spotify" else s)
  else current

/-- The channels the canonical owner (main surface script) registers
`listen` handlers for. -/
def mainListenedChannels : List String :=
  ["request_theme", "theme_change", "now_playing_update", "auth_lost"]

/-- The owner response table of the main surface: for each observed
request channel, the update channel it re-publishes.  Transcribed from
the `listen` registrations: only `request_theme` is answered (with a
`theme_update` broadcast of the current theme). -/
def mainOwnerResponse : String → Option String
  | "request_theme" => some "theme_update"
  | _ => none

/-- The request channels the widget emits at load
(widget.js DOMContentLoaded). -/
def widgetBootRequests : List String :=
  ["request_theme", "request_source_mode", "request_gsmtc_app_filter"]

/-- The update channel the claim expects as the answer to each request
channel (the naming convention of the broadcast protocol). -/
def requestExpectedUpdate : String → Option String
  | "request_theme" => some "theme_update"
  | "request_source_mode" => some "source_mode_update"
  | "request_gsmtc_app_filter" => some "gsmtc_app_filter_update"
  | _ => none

/-- The raw poll-session payload returned by `get_current_playing_gsmtc`. -/
structure GsmtcPayload where
  status : Option String := none
  position_ms : Option Int := none
  title : Option String := none
  artist : Option String := none
  album : Option String := none
  artwork_path : Option String := none
  source_app_id : Option String := none
deriving DecidableEq, Repr

/-- widget.js `matchesSelectedApp(d)`: lower-case the raw identifier and
test substring membership against the curated token sets of the selected
category. -/
def matchesSelectedApp (gsmtcAppFilter : String) (d : Option GsmtcPayload) :
    Bool :=
  let idRaw := (d.bind (·.source_app_id)).getD ""
  let id := jsToLower idRaw
  let isSpotify := jsIncludes id "spotify"
  let isApple :=
    jsIncludes id "applemusicwin11" ||
    jsIncludes id "appleinc.applemusic" ||
    jsIncludes id "applemusic" ||
    jsIncludes id "appleinc.itunes" ||
    jsIncludes id "itunes"
  let isYouTubeMusic :=
    jsIncludes id "youtubemusic" ||
    jsIncludes id "youtube_music" ||
    (jsIncludes id "google" && jsIncludes id "music" &&
       jsIncludes id "youtube")
  let isYouTubeMusicPWAish :=
    isYouTubeMusic ||
    ((jsIncludes id "pwa" || jsIncludes id "pwalauncher") &&
       jsIncludes id "youtube")
  match gsmtcAppFilter with
  | "spotify" => isSpotify
  | "apple" => isApple
  | "ytm" => isYouTubeMusicPWAish
  | _ => false

/-- widget.js `renderGSMTC(d)`: computes the record handed to `render`.
Non-matching or inactive sessions normalize to a not-playing record;
active ones map title to `track_name`, the single artist string (kept as a
raw string, not a list) to `artists`, `artwork_url` always absent. -/
def renderGSMTC (gsmtcAppFilter : String) (d : Option GsmtcPayload) :
    NowPlayingJS :=
  if matchesSelectedApp gsmtcAppFilter d = false then
    { is_playing := false }
  else
    let status := jsToLower ((d.bind (·.status)).getD "")
    let active :=
      (status = "playing" || status = "paused") ||
        (d.bind (·.position_ms)).isSome
    if active = false then { is_playing := false }
    else
      { is_playing := true
        track_name := some (jsTrim ((d.bind (·.title)).getD ""))
        artists := .str (jsTrim ((d.bind (·.artist)).getD ""))
        album := some (jsTrim ((d.bind (·.album)).getD ""))
        artwork_url := none
        artwork_path := jsOrNull (d.bind (·.artwork_path)) }

/-- The environment `ensureExportDir` runs against: the in-memory cached
directory, the outcome of the `get_local_art_dir` invoke (error = the
invoke rejects), and the directory-picker result (`none` = declined). -/
structure ExportDirEnv where
  exportDir : Option String
  savedCall : Except String (Option String)
  picked : Option String
deriving Repr

/-- Externally observable events of a directory resolution. -/
inductive DirEvent
  | invokedGetSaved
  | prompted
  | persisted (p : String)
deriving DecidableEq, Repr

/-- The returned directory or the thrown error message. -/
inductive DirResult
  | ok (dir : String)
  | thrown (msg : String)
deriving DecidableEq, Repr

/-- Result of a directory resolution: the returned directory or the thrown
error message, with the event trace. -/
structure DirOutcome where
  result : DirResult
  events : List DirEvent
deriving DecidableEq, Repr

/-- The body of main.js `ensureExportDir()` after the cached-directory
fast path: try the persisted path (swallowing invoke errors, and a falsy
saved value does not count); otherwise prompt once via the external
picker, throwing "No export folder selected." when the user declines and
persisting the choice otherwise. -/
def ensureExportDirUncached (env : ExportDirEnv) : DirOutcome :=
  let saved : Option String :=
    match env.savedCall with
    | .error _ => none
    | .ok v => jsOrNull v
  match saved with
  | some s => { result := .ok s, events := [.invokedGetSaved] }
  | none =>
    match jsOrNull env.picked with
    | none =>
      { result := .thrown "No export folder selected."
        events := [.invokedGetSaved, .prompted] }
    | some p =>
      { result := .ok p
        events := [.invokedGetSaved, .prompted, .persisted p] }

/-- main.js `ensureExportDir()`: return the truthy cached directory if
present, otherwise run the uncached resolution. -/
def ensureExportDir (env : ExportDirEnv) : DirOutcome :=
  match env.exportDir with
  | some dir =>
    if dir = "" then ensureExportDirUncached env
    else { result := .ok dir, events := [] }
  | none => ensureExportDirUncached env

/-- An external collaborator call made by the export path. -/
inductive ExtCall
  | invokeCmd (cmd : String)
  | openDirDialog
deriving DecidableEq, Repr

/-- The external calls main.js `exportCurrent(d)` performs: for a present
record it invokes the asset writer directly; it performs no directory
resolution (it never calls `ensureExportDir`, `get_local_art_dir` or the
picker dialog). -/
def exportCurrentCalls (d : Option NowPlayingJS) : List ExtCall :=
  match d with
  | none => []
  | some _ => [.invokeCmd "write_now_playing_assets"]

/-- The directory-resolution calls among a call list
(the `get_local_art_dir` invoke and the picker dialog). -/
def dirResolutionCalls (cs : List ExtCall) : List ExtCall :=
  cs.filter (fun c =>
    c = .invokeCmd "get_local_art_dir" || c = .openDirDialog)

/-- The externally visible action of one widget-button invocation. -/
inductive WidgetClickAction
  | createdWindow
  | closedWindow
  | focusedExisting
deriving DecidableEq, Repr

/-- main.js `open-widget` click handler: re-resolve existence, then close
the window when it exists and create a fresh one otherwise (toggle
semantics — an existing window is never focused).  Returns whether a
widget window is live afterwards, and the action taken. -/
def widgetButtonClick (present : Bool) : Bool × WidgetClickAction :=
  if present then (false, .closedWindow) else (true, .createdWindow)

/-- The visible state of the main surface now-playing area. -/
structure MainDisplay where
  nowPlayingText : String
  artworkSrc : Option String
  artworkShown : Bool
deriving DecidableEq, Repr

/-- The display state after the initial reset plus the guard branch. -/
def nothingPlayingDisplay : MainDisplay :=
  { nowPlayingText := "Nothing is currently playing."
    artworkSrc := none
    artworkShown := false }

/-- main.js `renderNowPlaying(d)` (the same logic as the settings-panel
variant): reset the visuals, show "Nothing is currently playing." when the
record is absent, not playing, or has neither artwork field truthy;
otherwise render the track line and the artwork (url preferred, else the
converted local path).  The duplicated second pass in main.js recomputes
the identical display.  `none` models the TypeError of `.join` on a
raw-string artists field; `cvt` is the external `convertFileSrc`. -/
def renderNowPlaying (cvt : String → String) (d : Option NowPlayingJS) :
    Option MainDisplay :=
  let guard : Bool :=
    match d with
    | none => true
    | some d =>
      !d.is_playing ||
        (!truthyS d.artwork_url && !truthyS d.artwork_path)
  if guard then some nothingPlayingDisplay
  else
    match d with
    | none => none
    | some d =>
      match
        (if truthyS d.track_name then artistsJoin ", " d.artists
         else some "") with
      | none => none
      | some artistsStr =>
        let text :=
          if truthyS d.track_name then
            let albumPart :=
              if truthyS d.album then " — " ++ d.album.getD "" else ""
            "▶ " ++ d.track_name.getD "" ++
              (if artistsStr = "" then "" else " — " ++ artistsStr) ++
              albumPart
          else ""
        let src :=
          if truthyS d.artwork_url then some (d.artwork_url.getD "")
          else if truthyS d.artwork_path then
            some (cvt (d.artwork_path.getD ""))
          else none
        some { nowPlayingText := text, artworkSrc := src,
               artworkShown := true }

/-- C2 counterexample: the widget loads with the locally persisted source
mode "gsmtc" and no `source_mode_update` response arrives before the
fallback timer fires; the fallback leaves the built-in default "spotify"
in place instead of falling back to the persisted "gsmtc". -/
theorem c2_counterexample :
    sourceModeFallback initialSourceMode (some "gsmtc") = "spotify" ∧
    (sourceModeFallback initialSourceMode (some "gsmtc") == "gsmtc")
      = false := by
  decide

/-- C2 (amended): the fallback timer consults local storage only when the
cached source mode is the empty string, but the widget initialises
`sourceMode` to "spotify" and `setSourceMode` always stores one of the two
non-empty mode names, so the fallback never changes the mode and the
locally persisted value is never read. -/
theorem c2_fallback_keeps_current_mode (stored : Option String)
    (next : String) :
    sourceModeFallback initialSourceMode stored = initialSourceMode ∧
    sourceModeFallback (setSourceModeVal next) stored
      = setSourceModeVal next := by
  constructor
  · simp [sourceModeFallback, initialSourceMode]
  · by_cases h : next = "gsmtc"
    · simp [setSourceModeVal, sourceModeFallback, h]
    · simp [setSourceModeVal, sourceModeFallback, h]

/-- C3 counterexample: the widget emits `request_source_mode` at load, and
the protocol expects a `source_mode_update` answer, but the canonical
owner registers no listener for that channel and its response table maps
it to nothing, so the owner never re-publishes the corresponding update. -/
theorem c3_counterexample :
    "request_source_mode" ∈ widgetBootRequests ∧
    requestExpectedUpdate "request_source_mode"
      = some "source_mode_update" ∧
    mainOwnerResponse "request_source_mode" = none ∧
    mainListenedChannels.contains "request_source_mode" = false := by
  decide

/-- C3 (amended): of the three request channels the owner answers only
`request_theme`, re-publishing `theme_update`; it holds no listener for
`request_source_mode` or `request_gsmtc_app_filter`, so those requests go
unanswered. -/
theorem c3_owner_answers_theme_only :
    mainOwnerResponse "request_theme" = some "theme_update" ∧
    mainOwnerResponse "request_source_mode" = none ∧
    mainOwnerResponse "request_gsmtc_app_filter" = none ∧
    mainListenedChannels.contains "request_theme" = true ∧
    mainListenedChannels.contains "request_source_mode" = false ∧
    mainListenedChannels.contains "request_gsmtc_app_filter" = false := by
  decide

/-- C8: evaluating the code at the failing interleaving.  From the widget
load state, a push-mode transition leaves its listener registration
pending at `await listen`; a `setSourceMode("gsmtc")` transition that runs
before the registration resolves cannot cancel it (`stopSpotifyListener`
is a no-op while `spotifyUnsub` is still null) and starts the poll timer;
when the pending registration then resolves, the push subscription goes
live alongside the running poll timer — the two strategies are
concurrently active, exactly what the teardown-before-activate rule is
meant to exclude. -/
theorem c8_overlapping_transition_both_live :
    bothStrategiesLive
        (runStrategy initialStrategyState
          [.setMode "spotify", .setMode "gsmtc", .listenResolved])
      = true ∧
    (runStrategy initialStrategyState
        [.setMode "spotify", .setMode "gsmtc", .listenResolved])
      = { pushSubsLive := 1, unsubRef := true, pollLive := true,
          pendingListens := 0 } := by
  decide

/-- Supporting fact: the violation needs the overlap.  A transition from a
quiescent state whose registration resolves before the next event leaves
a quiescent state with exactly the selected strategy live and never both
strategies live, so fully serialized `setSourceMode` transitions do
satisfy the teardown-before-activate rule. -/
theorem serializedTransition_exclusive (st : StrategyState)
    (next : String) (hq : quiescent st = true) :
    quiescent (serializedTransition next st) = true ∧
    bothStrategiesLive (serializedTransition next st) = false ∧
    serializedTransition next st
      = (if setSourceModeVal next = "gsmtc"
         then { pushSubsLive := 0, unsubRef := false, pollLive := true,
                pendingListens := 0 }
         else { pushSubsLive := 1, unsubRef := true, pollLive := false,
                pendingListens := 0 }) := by
  simp [quiescent, Bool.and_eq_true, decide_eq_true_eq] at hq
  obtain ⟨hq1, hq2⟩ := hq
  by_cases hm : next = "gsmtc"
  · by_cases hu : st.unsubRef
    · simp [serializedTransition, setSourceModeVal, restartStrategy,
        startGSMTCPoll, stopGSMTCPoll, stopSpotifyListener, quiescent,
        bothStrategiesLive, hm, hu, hq1, hq2]
    · simp [serializedTransition, setSourceModeVal, restartStrategy,
        startGSMTCPoll, stopGSMTCPoll, stopSpotifyListener, quiescent,
        bothStrategiesLive, hm, hu, hq1, hq2]
  · by_cases hu : st.unsubRef
    · simp [serializedTransition, setSourceModeVal, restartStrategy,
        startSpotifyListenerPrefix, listenResolves, stopGSMTCPoll,
        stopSpotifyListener, quiescent, bothStrategiesLive, hm, hu,
        hq1, hq2]
    · simp [serializedTransition, setSourceModeVal, restartStrategy,
        startSpotifyListenerPrefix, listenResolves, stopGSMTCPoll,
        stopSpotifyListener, quiescent, bothStrategiesLive, hm, hu,
        hq1, hq2]

/-- Supporting fact at a concrete state: the serialized-transition
exclusivity instantiated at the widget load state switching to gsmtc. -/
theorem serializedTransition_exclusive_witness :
    quiescent (serializedTransition "gsmtc" initialStrategyState)
      = true ∧
    bothStrategiesLive
        (serializedTransition "gsmtc" initialStrategyState) = false ∧
    serializedTransition "gsmtc" initialStrategyState
      = (if setSourceModeVal "gsmtc" = "gsmtc"
         then { pushSubsLive := 0, unsubRef := false, pollLive := true,
                pendingListens := 0 }
         else { pushSubsLive := 1, unsubRef := true, pollLive := false,
                pendingListens := 0 }) :=
  serializedTransition_exclusive initialStrategyState "gsmtc" (by decide)

/-- C9 counterexample: with no widget window open, invoking the main
surface widget button twice ends with no live widget window and the second
invocation closes the window created by the first rather than resolving to
it and focusing it. -/
theorem c9_counterexample :
    (widgetButtonClick (widgetButtonClick false).1).1 = false ∧
    (widgetButtonClick (widgetButtonClick false).1).2
      = WidgetClickAction.closedWindow ∧
    ((widgetButtonClick (widgetButtonClick false).1).2
        == WidgetClickAction.focusedExisting) = false := by
  decide

/-- C9 (amended): the main surface widget button is a toggle: invoking it
twice returns the widget to its initial existence state; when a window
exists the click closes it (never creating a duplicate and never merely
focusing), and when none exists the click creates one. -/
theorem c9_widget_button_toggle (present : Bool) :
    (widgetButtonClick (widgetButtonClick present).1).1 = present ∧
    (widgetButtonClick true).2 = WidgetClickAction.closedWindow ∧
    (widgetButtonClick false).2 = WidgetClickAction.createdWindow := by
  cases present <;> decide

/-- C1 counterexample: with export enabled and a fresh key, observing a
playing track whose asset-writer invocation fails surfaces the recoverable
status, but `lastExportKey` has already been advanced to the track key at
dispatch time, so the next observation of the same track initiates no
export attempt. -/
theorem c1_counterexample :
    observeWithOutcome ⟨true, ""⟩
        (some ⟨true, some "Song A", .list ["Artist"], some "Album",
               none, none, none⟩) true "disk full"
      = some (⟨true, "Song A||Artist||Album"⟩, true,
              some "Export failed: disk full") ∧
    maybeExport ⟨true, "Song A||Artist||Album"⟩
        (some ⟨true, some "Song A", .list ["Artist"], some "Album",
               none, none, none⟩)
      = some (⟨true, "Song A||Artist||Album"⟩, false) := by
  decide

/-- C1 (amended): on asset-writer failure the scheduler surfaces the
recoverable "Export failed" status and does not retry automatically, but
the last exported key is advanced synchronously at dispatch time and is
not rolled back by the failure handler, so the next observation of the
same track does not initiate the export again. -/
theorem c1_export_failure_no_retry (st : ExportState) (d : NowPlayingJS)
    (err k : String)
    (he : st.exportEnabled = true) (hp : d.is_playing = true)
    (hk : trackKey d = some k) (hne : k ≠ st.lastExportKey) :
    observeWithOutcome st (some d) true err
      = some (⟨true, k⟩, true, some ("Export failed: " ++ err)) ∧
    maybeExport ⟨true, k⟩ (some d) = some (⟨true, k⟩, false) := by
  have h1 : maybeExport st (some d) = some (⟨true, k⟩, true) := by
    simp [maybeExport, he, hp, hk, hne]
  constructor
  · simp [observeWithOutcome, h1, exportFailureStatus]
  · simp [maybeExport, hp, hk]

/-- C1 witness: the amended behaviour at a concrete track and error. -/
theorem c1_export_failure_no_retry_witness :
    observeWithOutcome ⟨true, ""⟩
        (some ⟨true, some "Song B", .list ["Artist B"], some "Album B",
               none, none, none⟩) true "disk"
      = some (⟨true, "Song B||Artist B||Album B"⟩, true,
              some ("Export failed: " ++ "disk")) ∧
    maybeExport ⟨true, "Song B||Artist B||Album B"⟩
        (some ⟨true, some "Song B", .list ["Artist B"], some "Album B",
               none, none, none⟩)
      = some (⟨true, "Song B||Artist B||Album B"⟩, false) :=
  c1_export_failure_no_retry ⟨true, ""⟩ _ "disk" _ rfl rfl (by decide)
    (by decide)

/-- C6 counterexample: for the observation sequence [A, A, A, B, A] of
playing records with distinct track keys and export enabled throughout,
the scheduler initiates 3 export attempts, not 2. -/
theorem c6_counterexample :
    runObservations ⟨true, ""⟩
        [⟨true, some "Song A", .list ["Artist A"], some "Album A",
          none, none, none⟩,
         ⟨true, some "Song A", .list ["Artist A"], some "Album A",
          none, none, none⟩,
         ⟨true, some "Song A", .list ["Artist A"], some "Album A",
          none, none, none⟩,
         ⟨true, some "Song B", .list ["Artist B"], some "Album B",
          none, none, none⟩,
         ⟨true, some "Song A", .list ["Artist A"], some "Album A",
          none, none, none⟩]
      = some (⟨true, "Song A||Artist A||Album A"⟩, 3) ∧
    ((3 : Nat) == 2) = false := by
  decide

/-- C6 (amended): for [A, A, A, B, A] with export enabled throughout and
distinct non-empty track keys, exactly 3 export attempts are initiated:
A's first occurrence, B, and A again after B interrupts. -/
theorem c6_dedup_three_attempts (A B : NowPlayingJS) (ka kb : String)
    (hpA : A.is_playing = true) (hpB : B.is_playing = true)
    (hka : trackKey A = some ka) (hkb : trackKey B = some kb)
    (hne : ka ≠ "") (hab : ka ≠ kb) :
    runObservations ⟨true, ""⟩ [A, A, A, B, A]
      = some (⟨true, ka⟩, 3) := by
  have hba : kb ≠ ka := Ne.symm hab
  simp [runObservations, maybeExport, hpA, hpB, hka, hkb, hne, hab, hba]

/-- C6 witness: the amended count at two concrete distinct tracks. -/
theorem c6_dedup_three_attempts_witness :
    runObservations ⟨true, ""⟩
        [⟨true, some "Song C", .list ["Artist C"], some "Album C",
          none, none, none⟩,
         ⟨true, some "Song C", .list ["Artist C"], some "Album C",
          none, none, none⟩,
         ⟨true, some "Song C", .list ["Artist C"], some "Album C",
          none, none, none⟩,
         ⟨true, some "Song D", .list ["Artist D"], some "Album D",
          none, none, none⟩,
         ⟨true, some "Song C", .list ["Artist C"], some "Album C",
          none, none, none⟩]
      = some (⟨true, "Song C||Artist C||Album C"⟩, 3) :=
  c6_dedup_three_attempts _ _ "Song C||Artist C||Album C"
    "Song D||Artist D||Album D" rfl rfl (by decide) (by decide)
    (by decide) (by decide)

/-- Helper: the widget change-detection key, built by joining three parts
with the "|" delimiter, is never the empty string. -/
theorem key_concat_ne_empty (t m a : String) :
    t ++ "|" ++ m ++ "|" ++ a ≠ "" := by
  intro h
  have hlen := congrArg String.length h
  have hbar : ("|" : String).length = 1 := by decide
  simp [String.length_append, hbar] at hlen

/-- C7: every observation of a missing or non-playing record resets the
widget change-detection key to the empty string with a not-playing outcome
(so two consecutive such observations never count as a change), and from
the reset key the next playing record with a truthy track name counts as a
change exactly once: the render fires `changed` and an immediate repeat of
the same record is `unchanged`. -/
theorem c7_change_detector_reset (cvt : String → String) (k : String)
    (e : Option NowPlayingJS) (d : NowPlayingJS)
    (hnp : ∀ r, e = some r → r.is_playing = false)
    (hp : d.is_playing = true) (ht : truthyS d.track_name = true) :
    widgetRenderStep cvt k e = ("", RenderOutcome.notPlaying) ∧
    (widgetRenderStep cvt "" (some d)).2 = RenderOutcome.changed ∧
    (widgetRenderStep cvt (widgetRenderStep cvt "" (some d)).1
        (some d)).2 = RenderOutcome.unchanged := by
  refine ⟨?_, ?_, ?_⟩
  · cases e with
    | none => rfl
    | some r => simp [widgetRenderStep, hnp r rfl]
  · simp [widgetRenderStep, hp, ht, key_concat_ne_empty]
  · simp [widgetRenderStep, hp, ht, key_concat_ne_empty]

/-- C7 witness: the reset and the fire-once resume at a concrete track. -/
theorem c7_change_detector_reset_witness :
    widgetRenderStep id "zz" none = ("", RenderOutcome.notPlaying) ∧
    (widgetRenderStep id ""
        (some ⟨true, some "Song W", .str "Artist W", some "Album W",
               none, none, none⟩)).2 = RenderOutcome.changed ∧
    (widgetRenderStep id
        (widgetRenderStep id ""
          (some ⟨true, some "Song W", .str "Artist W", some "Album W",
                 none, none, none⟩)).1
        (some ⟨true, some "Song W", .str "Artist W", some "Album W",
               none, none, none⟩)).2 = RenderOutcome.unchanged :=
  c7_change_detector_reset id "zz" none _ (fun r h => nomatch h) rfl
    (by decide)

/-- C10: a record that is playing but has neither artwork field truthy
renders on the main surface exactly like a non-playing record: the text
"Nothing is currently playing." with no artwork and no track line, even
when a non-empty track name and artists are present. -/
theorem c10_artless_playing_renders_nothing (cvt : String → String)
    (d e : NowPlayingJS)
    (hp : d.is_playing = true)
    (hu : truthyS d.artwork_url = false)
    (hq : truthyS d.artwork_path = false)
    (he : e.is_playing = false) :
    renderNowPlaying cvt (some d) = some nothingPlayingDisplay ∧
    renderNowPlaying cvt (some e) = some nothingPlayingDisplay := by
  constructor
  · simp [renderNowPlaying, hp, hu, hq]
  · simp [renderNowPlaying, he]

/-- C10 witness: a playing record with track name and artists but no
artwork shows the same display as the default non-playing record. -/
theorem c10_artless_playing_renders_nothing_witness :
    renderNowPlaying id
        (some ⟨true, some "Song X", .list ["Artist Y"], some "Album Z",
               none, none, none⟩) = some nothingPlayingDisplay ∧
    renderNowPlaying id
        (some ⟨false, none, .absent, none, none, none, none⟩)
      = some nothingPlayingDisplay :=
  c10_artless_playing_renders_nothing id _ _ rfl rfl rfl rfl

/-- C4 counterexample: for the poll payload of the claim scenario (with a
matching identifier), the normalized record carries the artists field as
the raw single string "Artist Y", not the single-element list
["Artist Y"]. -/
theorem c4_counterexample :
    (renderGSMTC "spotify"
        (some ⟨some "Playing", none, some "Song X", some "Artist Y",
               some "Album Z", none, some "com.spotify.desktop"⟩)).artists
      = ArtistsField.str "Artist Y" ∧
    ((renderGSMTC "spotify"
        (some ⟨some "Playing", none, some "Song X", some "Artist Y",
               some "Album Z", none,
               some "com.spotify.desktop"⟩)).artists
        == ArtistsField.list ["Artist Y"]) = false := by
  decide

/-- C4 (amended): when the poll source returns status "Playing", title
"Song X", artist "Artist Y", album "Album Z" and the source app
identifier matches the selected category, the normalized output is
playing with track name "Song X" and album "Album Z", artwork URL absent,
and the artists field is the raw single string "Artist Y" (a compatibility
concession: consumers accept either a string or a list). -/
theorem c4_gsmtc_normalization (gsmtcAppFilter : String)
    (P : GsmtcPayload)
    (hm : matchesSelectedApp gsmtcAppFilter (some P) = true)
    (hs : P.status = some "Playing") (ht : P.title = some "Song X")
    (ha : P.artist = some "Artist Y") (hb : P.album = some "Album Z") :
    renderGSMTC gsmtcAppFilter (some P)
      = { is_playing := true, track_name := some "Song X",
          artists := ArtistsField.str "Artist Y",
          album := some "Album Z", artwork_url := none,
          artwork_path := jsOrNull P.artwork_path } := by
  have hlow : jsToLower "Playing" = "playing" := by decide
  have ht1 : jsTrim "Song X" = "Song X" := by decide
  have ht2 : jsTrim "Artist Y" = "Artist Y" := by decide
  have ht3 : jsTrim "Album Z" = "Album Z" := by decide
  simp [renderGSMTC, hm, hs, ht, ha, hb, hlow, ht1, ht2, ht3]

/-- C4 witness: the amended normalization at the concrete scenario
payload with a matching identifier. -/
theorem c4_gsmtc_normalization_witness :
    renderGSMTC "spotify"
        (some ⟨some "Playing", none, some "Song X", some "Artist Y",
               some "Album Z", none, some "com.spotify.desktop"⟩)
      = { is_playing := true, track_name := some "Song X",
          artists := ArtistsField.str "Artist Y",
          album := some "Album Z", artwork_url := none,
          artwork_path := jsOrNull (none : Option String) } :=
  c4_gsmtc_normalization "spotify" _ (by decide) rfl rfl rfl rfl

/-- C5 counterexample: an export attempt for a playing record invokes the
asset writer directly, performing no directory-resolution call at all
(neither the persisted-path invoke nor the picker dialog): the claim that
every export attempt resolves an output directory before invoking the
asset writer fails. -/
theorem c5_counterexample :
    exportCurrentCalls
        (some ⟨true, some "Song A", .list ["Artist"], some "Album",
               none, none, none⟩)
      = [ExtCall.invokeCmd "write_now_playing_assets"] ∧
    dirResolutionCalls
        (exportCurrentCalls
          (some ⟨true, some "Song A", .list ["Artist"], some "Album",
                 none, none, none⟩)) = [] := by
  decide

/-- C5 (amended): `ensureExportDir` does implement the described
resolution — it prefers a truthy cached or persisted path, otherwise
prompts once via the external picker and persists the chosen result, and
fails with the explicit "No export folder selected." error when the user
declines — but export attempts never call it: `exportCurrent` invokes the
asset writer directly with no directory-resolution step. -/
theorem c5_dir_resolution (dir s p errMsg : String)
    (saved : Except String (Option String)) (pick : Option String)
    (d : NowPlayingJS)
    (hdir : dir ≠ "") (hs : s ≠ "") (hp : p ≠ "") :
    ensureExportDir ⟨some dir, saved, pick⟩
      = ⟨.ok dir, []⟩ ∧
    ensureExportDir ⟨none, .ok (some s), pick⟩
      = ⟨.ok s, [.invokedGetSaved]⟩ ∧
    ensureExportDir ⟨none, .error errMsg, none⟩
      = ⟨.thrown "No export folder selected.",
         [.invokedGetSaved, .prompted]⟩ ∧
    ensureExportDir ⟨none, .error errMsg, some p⟩
      = ⟨.ok p, [.invokedGetSaved, .prompted, .persisted p]⟩ ∧
    exportCurrentCalls (some d)
      = [ExtCall.invokeCmd "write_now_playing_assets"] ∧
    dirResolutionCalls (exportCurrentCalls (some d)) = [] := by
  refine ⟨?_, ?_, ?_, ?_, rfl, rfl⟩
  · simp [ensureExportDir, hdir]
  · simp [ensureExportDir, ensureExportDirUncached, jsOrNull, hs]
  · simp [ensureExportDir, ensureExportDirUncached, jsOrNull]
  · simp [ensureExportDir, ensureExportDirUncached, jsOrNull, hp]

/-- C5 witness: the amended resolution behaviour at concrete
environments and a concrete export record. -/
theorem c5_dir_resolution_witness :
    ensureExportDir ⟨some "C:/cached", Except.ok none, none⟩
      = ⟨.ok "C:/cached", []⟩ ∧
    ensureExportDir ⟨none, Except.ok (some "C:/saved"), none⟩
      = ⟨.ok "C:/saved", [.invokedGetSaved]⟩ ∧
    ensureExportDir ⟨none, Except.error "ipc failure", none⟩
      = ⟨.thrown "No export folder selected.",
         [.invokedGetSaved, .prompted]⟩ ∧
    ensureExportDir ⟨none, Except.error "ipc failure", some "C:/picked"⟩
      = ⟨.ok "C:/picked",
         [.invokedGetSaved, .prompted, .persisted "C:/picked"]⟩ ∧
    exportCurrentCalls
        (some ⟨true, some "Song E", .list ["Artist E"], some "Album E",
               none, none, none⟩)
      = [ExtCall.invokeCmd "write_now_playing_assets"] ∧
    dirResolutionCalls
        (exportCurrentCalls
          (some ⟨true, some "Song E", .list ["Artist E"], some "Album E",
                 none, none, none⟩)) = [] :=
  c5_dir_resolution "C:/cached" "C:/saved" "C:/picked" "ipc failure"
    (Except.ok none) none _ (by decide) (by decide) (by decide)
